import Mathlib

/-!
Verification of the KavPlus backend (streaming completion gateway and
multi-tenant OAuth token broker) against its design document.

The JavaScript source is embedded shallowly: every function below mirrors one
function or route-handler fragment of the repository, with JavaScript string
and truthiness semantics made explicit.  Network effects are modelled by
passing a transport function (request to response) and counting how many
times it is consulted.  All definitions are executable and evaluate inside
the kernel, so concrete runs can be checked by `rfl` or `decide`.
-/

/-! ## JavaScript semantics helpers -/

/-- JS truthiness of `process.env.X`-style values: `undefined` and the empty
string are falsy. -/
def jsTruthyStr (v : Option String) : Bool :=
  match v with
  | some s => s != ""
  | none => false

/-- JS `v || d` for string-valued `v` (`undefined` or empty falls back). -/
def jsOrStr (v : Option String) (d : String) : String :=
  match v with
  | some s => if s = "" then d else s
  | none => d

/-- JS `String.prototype.toUpperCase` (ASCII fragment used by the code). -/
def jsToUpper (s : String) : String :=
  String.mk (s.data.map Char.toUpper)

/-- JS `String.prototype.toLowerCase` (ASCII fragment used by the code). -/
def jsToLower (s : String) : String :=
  String.mk (s.data.map Char.toLower)

/-- Whitespace recognised by `String.prototype.trim` (common subset). -/
def isJsWs (c : Char) : Bool :=
  c = ' ' || c = '\t' || c = '\n' || c = '\r' || c = '\x0b' || c = '\x0c'

/-- JS `String.prototype.trim`. -/
def jsTrim (s : String) : String :=
  String.mk (((s.data.dropWhile isJsWs).reverse.dropWhile isJsWs).reverse)

/-- Split a character list at every newline, JS `split("\n")` semantics. -/
def splitNlChars : List Char → List (List Char)
  | [] => [[]]
  | c :: rest =>
    let r := splitNlChars rest
    if c = '\n' then [] :: r
    else
      match r with
      | [] => [[c]]
      | g :: gs => (c :: g) :: gs

/-- JS `s.split("\n")`. -/
def jsSplitNewline (s : String) : List String :=
  (splitNlChars s.data).map String.mk

/-- JS `s.slice(n)` for a non-negative character index. -/
def jsDropChars (n : Nat) (s : String) : String :=
  String.mk (s.data.drop n)

/-- JS `s.startsWith(p)`. -/
def jsStartsWith (p s : String) : Bool :=
  p.data.isPrefixOf s.data

/-- JS `[..].join(sep)` over strings. -/
def jsJoin (sep : String) : List String → String
  | [] => ""
  | [x] => x
  | x :: xs => x ++ sep ++ jsJoin sep xs

/-- Decimal digits of a natural number (fueled so the kernel can reduce it). -/
def natDigits : Nat → Nat → List Char
  | 0, _ => []
  | fuel + 1, n =>
    if n < 10 then [Char.ofNat (48 + n)]
    else natDigits fuel (n / 10) ++ [Char.ofNat (48 + n % 10)]

/-- Decimal rendering of a natural number, as JS template interpolation does. -/
def natToString (n : Nat) : String :=
  String.mk (natDigits (n + 1) n)

/-! ## JSON values and `JSON.parse`

The streaming loops call `JSON.parse` on each frame and navigate the result
with optional chaining.  We embed a JSON value type and a fueled
recursive-descent parser; the fuel is generous enough for any input (two
units per character), and all recursion is structural so `rfl` evaluates it. -/

inductive Json where
  | null : Json
  | bool (b : Bool) : Json
  | num (raw : String) : Json
  | str (s : String) : Json
  | arr (items : List Json) : Json
  | obj (fields : List (String × Json)) : Json

/-- Hex digit value, for `\u` escapes. -/
def hexVal (c : Char) : Option Nat :=
  if '0' ≤ c && c ≤ '9' then some (c.toNat - 48)
  else if 'a' ≤ c && c ≤ 'f' then some (c.toNat - 87)
  else if 'A' ≤ c && c ≤ 'F' then some (c.toNat - 70)
  else none

/-- Skip JSON whitespace. -/
def skipWs : List Char → List Char
  | [] => []
  | c :: cs => if c = ' ' || c = '\t' || c = '\n' || c = '\r' then skipWs cs else c :: cs

/-- Match an exact character sequence. -/
def expectChars : List Char → List Char → Option (List Char)
  | [], cs => some cs
  | _ :: _, [] => none
  | e :: es, c :: cs => if c = e then expectChars es cs else none

/-- Parse the body of a JSON string literal (after the opening quote),
returning the decoded text and the rest of the input. -/
def parseStrBody : Nat → List Char → Option (List Char × List Char)
  | 0, _ => none
  | _, [] => none
  | fuel + 1, c :: cs =>
    if c = '"' then some ([], cs)
    else if c = '\\' then
      match cs with
      | [] => none
      | e :: cs2 =>
        let dec : Option (Char × List Char) :=
          if e = '"' then some ('"', cs2)
          else if e = '\\' then some ('\\', cs2)
          else if e = '/' then some ('/', cs2)
          else if e = 'b' then some (Char.ofNat 8, cs2)
          else if e = 'f' then some (Char.ofNat 12, cs2)
          else if e = 'n' then some ('\n', cs2)
          else if e = 'r' then some ('\r', cs2)
          else if e = 't' then some ('\t', cs2)
          else if e = 'u' then
            match cs2 with
            | a :: b :: c3 :: d :: cs3 =>
              match hexVal a, hexVal b, hexVal c3, hexVal d with
              | some x, some y, some z, some w =>
                some (Char.ofNat (((x * 16 + y) * 16 + z) * 16 + w), cs3)
              | _, _, _, _ => none
            | _ => none
          else none
        match dec with
        | some (ch, rest) =>
          match parseStrBody fuel rest with
          | some (s, rest2) => some (ch :: s, rest2)
          | none => none
        | none => none
    else
      match parseStrBody fuel cs with
      | some (s, rest2) => some (c :: s, rest2)
      | none => none

/-- Characters that can appear in a JSON number lexeme. -/
def isNumChar (c : Char) : Bool :=
  c.isDigit || c = '-' || c = '+' || c = '.' || c = 'e' || c = 'E'

mutual

/-- Recursive-descent parser for one JSON value. -/
def parseValue : Nat → List Char → Option (Json × List Char)
  | 0, _ => none
  | fuel + 1, cs0 =>
    match skipWs cs0 with
    | [] => none
    | c :: cs =>
      if c = '"' then
        match parseStrBody (fuel + 1) cs with
        | some (s, rest) => some (Json.str (String.mk s), rest)
        | none => none
      else if c = '\x7b' then parseObjRest fuel cs
      else if c = '[' then parseArrRest fuel cs
      else if c = 't' then
        match expectChars ['r', 'u', 'e'] cs with
        | some rest => some (Json.bool true, rest)
        | none => none
      else if c = 'f' then
        match expectChars ['a', 'l', 's', 'e'] cs with
        | some rest => some (Json.bool false, rest)
        | none => none
      else if c = 'n' then
        match expectChars ['u', 'l', 'l'] cs with
        | some rest => some (Json.null, rest)
        | none => none
      else if c = '-' || c.isDigit then
        let p := (c :: cs).span isNumChar
        some (Json.num (String.mk p.1), p.2)
      else none

/-- Parse array items after the opening bracket (empty array allowed). -/
def parseArrRest : Nat → List Char → Option (Json × List Char)
  | 0, _ => none
  | fuel + 1, cs =>
    match skipWs cs with
    | ']' :: rest => some (Json.arr [], rest)
    | cs2 => parseArrItems fuel cs2

/-- Parse one or more comma-separated array items up to the closing bracket. -/
def parseArrItems : Nat → List Char → Option (Json × List Char)
  | 0, _ => none
  | fuel + 1, cs =>
    match parseValue fuel cs with
    | none => none
    | some (v, rest) =>
      match skipWs rest with
      | ',' :: rest2 =>
        match parseArrItems fuel rest2 with
        | some (Json.arr vs, rest3) => some (Json.arr (v :: vs), rest3)
        | _ => none
      | ']' :: rest2 => some (Json.arr [v], rest2)
      | _ => none

/-- Parse object fields after the opening brace (empty object allowed). -/
def parseObjRest : Nat → List Char → Option (Json × List Char)
  | 0, _ => none
  | fuel + 1, cs =>
    match skipWs cs with
    | '\x7d' :: rest => some (Json.obj [], rest)
    | cs2 => parseObjFields fuel cs2

/-- Parse one or more comma-separated object fields up to the closing brace. -/
def parseObjFields : Nat → List Char → Option (Json × List Char)
  | 0, _ => none
  | fuel + 1, cs =>
    match skipWs cs with
    | '"' :: cs2 =>
      match parseStrBody (fuel + 1) cs2 with
      | none => none
      | some (k, rest) =>
        match skipWs rest with
        | ':' :: rest2 =>
          match parseValue fuel rest2 with
          | none => none
          | some (v, rest3) =>
            match skipWs rest3 with
            | ',' :: rest4 =>
              match parseObjFields fuel rest4 with
              | some (Json.obj fs, rest5) =>
                some (Json.obj ((String.mk k, v) :: fs), rest5)
              | _ => none
            | '\x7d' :: rest4 => some (Json.obj [(String.mk k, v)], rest4)
            | _ => none
        | _ => none
    | _ => none

end

/-- JS `JSON.parse`: parse a complete JSON document, rejecting trailing
content (returns `none` where `JSON.parse` would throw). -/
def jsonParse (s : String) : Option Json :=
  match parseValue (2 * s.data.length + 8) s.data with
  | some (j, rest) => if skipWs rest = [] then some j else none
  | none => none

/-- JS property access `o?.k` (objects only; later duplicate keys win, as in
`JSON.parse`). -/
def Json.getField : Json → String → Option Json
  | Json.obj fs, k => (fs.reverse.find? (fun p => p.1 == k)).map (fun p => p.2)
  | _, _ => none

/-- JS index access `a?.[i]` on arrays. -/
def Json.getIdx : Json → Nat → Option Json
  | Json.arr xs, i => xs.get? i
  | _, _ => none

/-- Whether the mantissa of a JSON number lexeme is zero. -/
def numIsZero (raw : String) : Bool :=
  (raw.data.takeWhile (fun c => !(c = 'e' || c = 'E'))).all
    (fun c => !(c.isDigit && c != '0'))

/-- JS truthiness of a JSON value. -/
def Json.truthy : Json → Bool
  | Json.null => false
  | Json.bool b => b
  | Json.num raw => !numIsZero raw
  | Json.str s => s != ""
  | Json.arr _ => true
  | Json.obj _ => true

mutual

/-- JS `String(v)` coercion of a JSON value (used by `Array.prototype.join`). -/
def Json.jsString : Json → String
  | Json.null => "null"
  | Json.bool true => "true"
  | Json.bool false => "false"
  | Json.num raw => raw
  | Json.str s => s
  | Json.arr xs => jsJoin "," (Json.jsStringList xs)
  | Json.obj _ => "[object Object]"

/-- Pointwise `Json.jsString` over a list. -/
def Json.jsStringList : List Json → List String
  | [] => []
  | x :: xs => Json.jsString x :: Json.jsStringList xs

end

/-- JS `a || b` where `a` is an optionally-present JSON value. -/
def jsOr (a : Option Json) (b : Json) : Json :=
  match a with
  | some v => if v.truthy then v else b
  | none => b

/-! ## ChatKAV gateway: data model

One chat message of the normalized request body, and the canonical stream
event written to the caller.  The handler emits `data: {token}` frames via
`send`, `data: {error}` frames on failure, and closes the stream with
`end()`; we record the close as the terminal `done` event. -/

structure ChatMessage where
  role : String
  content : String
deriving DecidableEq

inductive Event where
  | token (value : Json) : Event
  | error (message : String) : Event
  | done : Event

/-- Text carried by a token event (the gateway only ever sends JSON strings
on the paths proved below). -/
def tokenText : Event → String
  | Event.token (Json.str s) => s
  | _ => ""

/-- Concatenation of the token texts of an event sequence. -/
def concatTokens (events : List Event) : String :=
  jsJoin "" (events.map tokenText)

/-! ## Provider selection (`pickProvider` and the `chosen` computation) -/

/-- Environment slice consulted by provider selection in the gateway. -/
structure AiEnv where
  aiProvider : Option String
  openaiKey : Option String
  aimlapiKey : Option String
  anthropicKey : Option String
  geminiKey : Option String

/-- Source `pickProvider`: an explicit `AI_PROVIDER` wins; otherwise the
first of openai, aimlapi, anthropic, gemini with a key set; otherwise the
fallback `"openai"`. -/
def pickProvider (env : AiEnv) : String :=
  let provider := jsToLower (jsOrStr env.aiProvider "auto")
  if provider ≠ "auto" then provider
  else if jsTruthyStr env.openaiKey then "openai"
  else if jsTruthyStr env.aimlapiKey then "aimlapi"
  else if jsTruthyStr env.anthropicKey then "anthropic"
  else if jsTruthyStr env.geminiKey then "gemini"
  else "openai"

/-- Source `chosen` computation: `(req.body?.provider || pickProvider()).toLowerCase()`. -/
def chooseProvider (reqProvider : Option String) (env : AiEnv) : String :=
  jsToLower (jsOrStr reqProvider (pickProvider env))

/-- Default system prompt of the gateway. -/
def defaultSystemPrompt : String :=
  "You are ChatKAV+, a helpful assistant for Amazon sellers."

/-- Source normalization: `[{ role: "system", content: system }, ...messages]`
where `system` is `req.body?.system || defaultSystemPrompt`. -/
def normalizeMessages (reqSystem : Option String) (messages : List ChatMessage) :
    List ChatMessage :=
  { role := "system", content := jsOrStr reqSystem defaultSystemPrompt } :: messages

/-! ## OpenAI-compatible streaming loop (the Stream Normalizer)

The handler reads chunks from the response body, buffers up to the last
newline, and for each complete line: skips lines not starting with `data:`,
stops the whole stream on a `[DONE]` payload, parses other payloads as JSON
and emits `choices[0].delta.content` when truthy; parse failures are skipped.
When the body ends, the stream is closed. -/

/-- The optional chain `json?.choices?.[0]?.delta?.content`. -/
def openAIDelta (j : Json) : Option Json :=
  ((j.getField "choices").bind (fun c => c.getIdx 0)).bind
    (fun c => (c.getField "delta").bind (fun d => d.getField "content"))

/-- The streaming read loop: `pending` are the complete lines of the current
chunk still to process, `chunks` the chunks not yet read, `buffer` the
carried partial line.  The `fuel` makes the recursion structural so the
kernel can evaluate it; one unit is spent per chunk read and per processed
line, so any fuel above that total gives the loop semantics. -/
def sseRun : Nat → List String → List String → String → List Event
  | 0, _, _, _ => []
  | _ + 1, [], [], _ => [Event.done]
  | fuel + 1, [], chunk :: rest, buffer =>
    let lines := jsSplitNewline (buffer ++ chunk)
    sseRun fuel lines.dropLast rest (lines.getLast?.getD "")
  | fuel + 1, line :: ls, chunks, buffer =>
    let s := jsTrim line
    if jsStartsWith "data:" s = false then sseRun fuel ls chunks buffer
    else
      let payload := jsTrim (jsDropChars 5 s)
      if payload = "[DONE]" then [Event.done]
      else
        match jsonParse payload with
        | some j =>
          match openAIDelta j with
          | some d =>
            if d.truthy then Event.token d :: sseRun fuel ls chunks buffer
            else sseRun fuel ls chunks buffer
          | none => sseRun fuel ls chunks buffer
        | none => sseRun fuel ls chunks buffer

/-- Ample fuel for `sseRun`: one unit per chunk plus one per character
bounds one unit per chunk plus one per completed line. -/
def sseFuel (chunks : List String) : Nat :=
  2 * (chunks.map (fun c => c.data.length)).foldl (fun a b => a + b) 0
    + chunks.length + 8

/-- The OpenAI/AIMLAPI stream normalizer applied to a fresh response body. -/
def openAIStreamEvents (chunks : List String) : List Event :=
  sseRun (sseFuel chunks) [] chunks ""

/-! ## Provider adapters (the three `/ai/chat` branches) -/

structure OpenAIRequest where
  base : String
  apiKey : String
  model : String
  messages : List ChatMessage
  temperature : Rat
  max_tokens : Int
  stream : Bool

/-- Upstream response for the streaming providers (`fetch` result): HTTP
status, error body text, and the streamed body chunks (absent body modelled
by `hasBody = false`). -/
structure StreamResponse where
  ok : Bool
  status : Nat
  hasBody : Bool
  bodyText : String
  chunks : List String

structure BranchResult where
  events : List Event
  upstreamCalls : Nat

/-- Source OpenAI/AIMLAPI branch: key check, one streaming `fetch`, then the
buffered line loop. -/
def openaiBranch (chosen : String) (base : String) (key : Option String)
    (transport : OpenAIRequest → StreamResponse) (model : String)
    (normalized : List ChatMessage) (temperature : Rat) (max_tokens : Int) :
    BranchResult :=
  if jsTruthyStr key = false then
    { events := [Event.error (jsToUpper chosen ++ " key missing"), Event.done],
      upstreamCalls := 0 }
  else
    let r := transport
      { base := base, apiKey := key.getD "", model := model,
        messages := normalized, temperature := temperature,
        max_tokens := max_tokens, stream := true }
    if r.ok = false ∨ r.hasBody = false then
      { events := [Event.error (chosen ++ " error " ++ natToString r.status ++ ": "
          ++ r.bodyText), Event.done],
        upstreamCalls := 1 }
    else
      { events := openAIStreamEvents r.chunks, upstreamCalls := 1 }

structure AnthropicRequest where
  apiKey : String
  model : String
  system : Option String
  messages : List ChatMessage
  temperature : Rat
  max_tokens : Int
  stream : Bool

/-- The per-line extraction `evt?.delta?.text || evt?.content_block?.text || ""`,
emitted as a token when truthy; unparseable lines are skipped. -/
def anthropicLineText (line : String) : Option Json :=
  match jsonParse line with
  | none => none
  | some evt =>
    let t := jsOr ((evt.getField "delta").bind (fun d => d.getField "text"))
      (jsOr ((evt.getField "content_block").bind (fun d => d.getField "text"))
        (Json.str ""))
    if t.truthy then some t else none

/-- Source Anthropic read loop: each chunk is split on newlines with no
cross-chunk buffering; the stream is closed when the body ends. -/
def anthropicLoop : List String → List Event
  | [] => [Event.done]
  | chunk :: rest =>
    ((jsSplitNewline chunk).filterMap anthropicLineText).map Event.token
      ++ anthropicLoop rest

/-- Source Anthropic branch. -/
def anthropicBranch (key : Option String)
    (transport : AnthropicRequest → StreamResponse) (model : String)
    (normalized : List ChatMessage) (temperature : Rat) (max_tokens : Int) :
    BranchResult :=
  if jsTruthyStr key = false then
    { events := [Event.error "ANTHROPIC_API_KEY missing", Event.done],
      upstreamCalls := 0 }
  else
    let r := transport
      { apiKey := key.getD "",
        model := if model = "" then "claude-3-5-sonnet-20240620" else model,
        system := ((normalized.find? (fun m => m.role == "system")).map
          (fun m => m.content)),
        messages := (normalized.filter (fun m => m.role != "system")).map
          (fun m => { role := m.role, content := m.content }),
        temperature := temperature, max_tokens := max_tokens, stream := true }
    if r.ok = false ∨ r.hasBody = false then
      { events := [Event.error ("Anthropic error " ++ natToString r.status ++ ": "
          ++ r.bodyText), Event.done],
        upstreamCalls := 1 }
    else
      { events := anthropicLoop r.chunks, upstreamCalls := 1 }

structure GeminiRequest where
  mdl : String
  apiKey : String
  text : String
  temperature : Rat
  maxOutputTokens : Int

/-- Upstream response for the non-streaming Gemini call: status, error body
text, and the parsed JSON document. -/
structure GeminiResponse where
  ok : Bool
  status : Nat
  bodyText : String
  body : Json

structure GeminiResult where
  events : List Event
  upstreamCalls : Nat
  request : Option GeminiRequest

/-- Source prompt concatenation: non-system messages as `ROLE: content`
lines joined by newlines, in order. -/
def geminiConcat (normalized : List ChatMessage) : String :=
  jsJoin "\n" ((normalized.filter (fun m => m.role != "system")).map
    (fun m => jsToUpper m.role ++ ": " ++ m.content))

/-- The single non-streaming Gemini request the branch builds. -/
def geminiRequestOf (key : Option String) (model : String)
    (normalized : List ChatMessage) (temperature : Rat) (max_tokens : Int) :
    GeminiRequest :=
  { mdl := if model = "" then "gemini-1.5-flash" else model,
    apiKey := key.getD "", text := geminiConcat normalized,
    temperature := temperature, maxOutputTokens := max_tokens }

/-- The extraction
`data?.candidates?.[0]?.content?.parts?.map((p) => p.text || "").join("") || ""`
(a non-array `parts` value, which would crash the handler, is not modelled). -/
def geminiText (data : Json) : String :=
  match (((data.getField "candidates").bind (fun c => c.getIdx 0)).bind
      (fun c => c.getField "content")).bind (fun c => c.getField "parts") with
  | some (Json.arr parts) =>
    jsJoin "" (parts.map (fun p => (jsOr (p.getField "text") (Json.str "")).jsString))
  | _ => ""

/-- Source Gemini branch: key check, one non-streaming call, then the
returned text re-emitted one character per token event. -/
def geminiBranch (key : Option String)
    (transport : GeminiRequest → GeminiResponse) (model : String)
    (normalized : List ChatMessage) (temperature : Rat) (max_tokens : Int) :
    GeminiResult :=
  if jsTruthyStr key = false then
    { events := [Event.error "GEMINI_API_KEY missing", Event.done],
      upstreamCalls := 0, request := none }
  else
    let req := geminiRequestOf key model normalized temperature max_tokens
    let r := transport req
    if r.ok = false then
      { events := [Event.error ("Gemini error " ++ natToString r.status ++ ": "
          ++ r.bodyText), Event.done],
        upstreamCalls := 1, request := some req }
    else
      let text := geminiText r.body
      { events := text.data.map (fun ch => Event.token (Json.str (String.mk [ch])))
          ++ [Event.done],
        upstreamCalls := 1, request := some req }

/-! ## Token broker (`getAccessToken` in `server.js`)

The credential state the code reads is the process environment: the
per-store refresh token `REFRESH_TOKEN_<storeId>` plus the LWA client
credentials.  `transport` stands for the `fetch` of the LWA token endpoint,
and the second component of the result counts how many times it is called. -/

structure TokenRequest where
  grant_type : String
  refresh_token : String
  client_id : String
  client_secret : String
deriving DecidableEq

/-- LWA token endpoint reply: HTTP success flag and status, the token body
fields, and `bodyText` standing for `JSON.stringify(data)`. -/
structure TokenResponse where
  ok : Bool
  status : Nat
  access_token : String
  token_type : String
  expires_in : Nat
  bodyText : String
deriving DecidableEq

structure LwaEnv where
  refreshTokens : String → Option String
  clientId : String
  clientSecret : String

/-- Source `getAccessToken(storeId)`: require the refresh token and client
credentials, then exchange the refresh token in a single call. -/
def getAccessToken (env : LwaEnv) (transport : TokenRequest → TokenResponse)
    (storeId : String) : Except String TokenResponse × Nat :=
  let rt := env.refreshTokens storeId
  if jsTruthyStr rt = false then
    (Except.error ("Missing refresh token for store \"" ++ storeId
      ++ "\". Add REFRESH_TOKEN_" ++ storeId ++ " in Render env."), 0)
  else if env.clientId = "" ∨ env.clientSecret = "" then
    (Except.error "Missing LWA_CLIENT_ID or LWA_CLIENT_SECRET.", 0)
  else
    let r := transport
      { grant_type := "refresh_token", refresh_token := rt.getD "",
        client_id := env.clientId, client_secret := env.clientSecret }
    if r.ok = false then
      (Except.error ("LWA token error: " ++ natToString r.status ++ " "
        ++ r.bodyText), 1)
    else (Except.ok r, 1)

/-- Whether a broker invocation returned a token. -/
def brokerOk (r : Except String TokenResponse × Nat) : Bool :=
  match r.1 with
  | Except.ok _ => true
  | Except.error _ => false

/-! ## OAuth callback (`/connect/spapi/callback` completing authorization) -/

structure CodeExchangeRequest where
  grant_type : String
  code : String
  redirect_uri : String
  client_id : String
  client_secret : String
deriving DecidableEq

/-- LWA code-exchange reply (`{ access_token, refresh_token, expires_in,
token_type }`); `bodyText` stands for the error body text. -/
structure CodeExchangeResponse where
  ok : Bool
  status : Nat
  access_token : String
  refresh_token : String
  expires_in : Nat
  token_type : String
  bodyText : String
deriving DecidableEq

/-- The record the callback writes to `TOKENS.spapi`: exactly these three
fields appear in the source. -/
structure SpapiRecord where
  refresh_token : String
  region : String
  saved_at : String
deriving DecidableEq

structure CallbackEnv where
  apiBaseUrl : String
  clientId : String
  clientSecret : String
  spapiRegion : Option String

structure CallbackQuery where
  code : Option String
  error : Option String
  error_description : Option String

inductive CallbackOutcome where
  | badRequest (body : String) : CallbackOutcome
  | serverError (body : String) : CallbackOutcome
  | success (body : String) : CallbackOutcome
deriving DecidableEq

/-- The code-exchange request the callback sends. -/
def spapiExchangeRequest (env : CallbackEnv) (code : String) : CodeExchangeRequest :=
  { grant_type := "authorization_code", code := code,
    redirect_uri := env.apiBaseUrl ++ "/connect/spapi/callback",
    client_id := env.clientId, client_secret := env.clientSecret }

/-- Source callback handler: reject an error or missing code, exchange the
code, and store `{ refresh_token, region, saved_at }` in memory; `now` is
`new Date().toISOString()` and `saved` the previous in-memory record. -/
def spapiCallback (env : CallbackEnv)
    (transport : CodeExchangeRequest → CodeExchangeResponse)
    (q : CallbackQuery) (now : String) (saved : Option SpapiRecord) :
    Option SpapiRecord × CallbackOutcome :=
  if jsTruthyStr q.error then
    (saved, CallbackOutcome.badRequest ("LWA error: " ++ q.error.getD "" ++ " - "
      ++ jsOrStr q.error_description ""))
  else if jsTruthyStr q.code = false then
    (saved, CallbackOutcome.badRequest "Missing code")
  else
    let r := transport (spapiExchangeRequest env (q.code.getD ""))
    if r.ok = false then
      (saved, CallbackOutcome.serverError ("SP-API connect failed: LWA token exchange failed: "
        ++ natToString r.status ++ " " ++ r.bodyText))
    else
      (some { refresh_token := r.refresh_token,
              region := jsOrStr env.spapiRegion "eu", saved_at := now },
       CallbackOutcome.success "✅ SP-API refresh token saved (in memory). Replace with DB storage later.")

/-! ## Store repository

`storeRepo.js` maps the configured stores to public `{key, label}` pairs;
the richer variant keeps per-store SP-API credentials inside the record and
offers `getStore`/`saveStore` over the persisted list. -/

structure SpapiCred where
  refresh_token : String
  region : String
deriving DecidableEq

/-- One entry of `stores.json`: public identity plus whatever credential
material a store may carry. -/
structure StoreRec where
  id : String
  name : String
  spapi : Option SpapiCred
deriving DecidableEq

structure StoreView where
  key : String
  label : String
deriving DecidableEq

/-- Source `listStores`: only safe info is shared (no tokens). -/
def listStores (stores : List StoreRec) : List StoreView :=
  stores.map (fun s => { key := s.id, label := s.name })

/-- One entry of the keyed `stores.json` used by `getStore`/`saveStore`. -/
structure Store where
  key : String
  name : String
  spapi : Option SpapiCred
deriving DecidableEq

/-- Source `getStore(key)`: `list.find(s => s.key === key) || null`. -/
def getStore (list : List Store) (key : String) : Option Store :=
  list.find? (fun s => s.key == key)

/-- Source `saveStore(store)`: `findIndex` on the key, then `push` or
in-place assignment. -/
def saveStore (list : List Store) (store : Store) : List Store :=
  match list.findIdx? (fun s => s.key == store.key) with
  | none => list ++ [store]
  | some i => list.set i store

/-- Recursive form of `saveStore`, used to reason by induction. -/
def upsertRec : List Store → Store → List Store
  | [], st => [st]
  | s :: rest, st =>
    if s.key == st.key then st :: rest else s :: upsertRec rest st

/-! ## Concrete fixtures used by counterexamples and witnesses -/

/-- The synthetic OpenAI-style frame carrying the token `Hel`. -/
def frameHel : String :=
  "data: \x7b\"choices\":[\x7b\"delta\":\x7b\"content\":\"Hel\"\x7d\x7d]\x7d"

/-- The synthetic OpenAI-style frame carrying the token `lo`. -/
def frameLo : String :=
  "data: \x7b\"choices\":[\x7b\"delta\":\x7b\"content\":\"lo\"\x7d\x7d]\x7d"

/-- The synthetic frame sequence of the round-trip property. -/
def c2Frames : List String :=
  [frameHel, frameLo, "data: [DONE]"]

/-- Broker fixture: a store `kavplus` with a refresh token configured. -/
def c1Env : LwaEnv :=
  { refreshTokens := fun sid => if sid = "kavplus" then some "refresh-1" else none,
    clientId := "cid", clientSecret := "secret" }

/-- Broker fixture: the authorization server answers every exchange with a
fresh one-hour token. -/
def c1Resp : TokenResponse :=
  { ok := true, status := 200, access_token := "at-1", token_type := "bearer",
    expires_in := 3600, bodyText := "" }

def c1Transport : TokenRequest → TokenResponse := fun _ => c1Resp

/-- Broker fixture: no refresh token configured for any store. -/
def c6Env : LwaEnv :=
  { refreshTokens := fun _ => none, clientId := "cid", clientSecret := "secret" }

/-- Gateway fixture: a request that already carries a system message. -/
def c3Messages : List ChatMessage :=
  [{ role := "system", content := "You are a terse bot." },
   { role := "user", content := "hi" }]

/-- Gateway fixture: no provider hint and no API key configured at all. -/
def c4Env : AiEnv :=
  { aiProvider := none, openaiKey := none, aimlapiKey := none,
    anthropicKey := none, geminiKey := none }

def c4Transport : OpenAIRequest → StreamResponse :=
  fun _ => { ok := false, status := 500, hasBody := false, bodyText := "", chunks := [] }

/-- Callback fixture environment and query. -/
def c5Env : CallbackEnv :=
  { apiBaseUrl := "https://api.kavplus.uk", clientId := "cid",
    clientSecret := "secret", spapiRegion := none }

def c5Query : CallbackQuery :=
  { code := some "authcode", error := none, error_description := none }

/-- Two exchange replies agreeing on the refresh token but differing in
access token and lifetime. -/
def c5RespA : CodeExchangeResponse :=
  { ok := true, status := 200, access_token := "atA", refresh_token := "rt",
    expires_in := 3600, token_type := "bearer", bodyText := "" }

def c5RespB : CodeExchangeResponse :=
  { ok := true, status := 200, access_token := "atB", refresh_token := "rt",
    expires_in := 60, token_type := "bearer", bodyText := "" }

/-- Adapter fixtures for concrete invocations. -/
def c7AnthropicTransport : AnthropicRequest → StreamResponse :=
  fun _ => { ok := true, status := 200, hasBody := true, bodyText := "", chunks := [] }

def c7GeminiTransport : GeminiRequest → GeminiResponse :=
  fun _ => { ok := true, status := 200, bodyText := "", body := Json.null }

def c7Messages : List ChatMessage := [{ role := "user", content := "hi" }]

/-- Gemini fixture: a successful reply whose single candidate text is `Hi!`. -/
def c8Body : Json :=
  Json.obj [("candidates", Json.arr [Json.obj [("content", Json.obj
    [("parts", Json.arr [Json.obj [("text", Json.str "Hi!")]])])]])]

def c8Transport : GeminiRequest → GeminiResponse :=
  fun _ => { ok := true, status := 200, bodyText := "", body := c8Body }

def c8Messages : List ChatMessage :=
  [{ role := "system", content := "sys" }, { role := "user", content := "Hello" }]

/-- Two store tables agreeing on ids and names but not on stored secrets. -/
def c9StoresA : List StoreRec :=
  [{ id := "kavplus", name := "KAV PLUS", spapi := some { refresh_token := "rtA", region := "eu" } },
   { id := "jk", name := "J and K", spapi := none }]

def c9StoresB : List StoreRec :=
  [{ id := "kavplus", name := "KAV PLUS", spapi := some { refresh_token := "rtB", region := "na" } },
   { id := "jk", name := "J and K", spapi := some { refresh_token := "other", region := "eu" } }]

/-- Store-list fixture for the upsert properties. -/
def c10List : List Store :=
  [{ key := "kavplus", name := "KAV PLUS", spapi := none },
   { key := "jk", name := "J and K", spapi := none }]

def c10Store : Store :=
  { key := "kavplus", name := "KAV PLUS LTD",
    spapi := some { refresh_token := "rt", region := "eu" } }

/-! ## Helper lemmas -/

theorem concatTokens_append_done (evts : List Event) :
    concatTokens (evts ++ [Event.done]) = concatTokens evts := by
  induction evts with
  | nil => rfl
  | cons e rest ih =>
    cases rest with
    | nil =>
      show tokenText e ++ "" ++ "" = tokenText e
      simp
    | cons f fs =>
      show tokenText e ++ "" ++ concatTokens ((f :: fs) ++ [Event.done])
          = tokenText e ++ "" ++ concatTokens (f :: fs)
      rw [ih]

theorem concatTokens_singleton_chars (cs : List Char) :
    concatTokens (cs.map (fun ch => Event.token (Json.str (String.mk [ch]))))
      = String.mk cs := by
  induction cs with
  | nil => rfl
  | cons c rest ih =>
    cases rest with
    | nil => rfl
    | cons d ds =>
      show String.mk [c] ++ ""
          ++ concatTokens ((d :: ds).map (fun ch => Event.token (Json.str (String.mk [ch]))))
          = String.mk (c :: d :: ds)
      rw [ih]
      rfl

theorem listStores_factors (l : List StoreRec) :
    listStores l = (l.map (fun s => (s.id, s.name))).map
      (fun p => { key := p.1, label := p.2 }) := by
  rw [List.map_map]
  rfl

/-! ## Claims about the stream normalizer and gateway -/

/-- C2: feeding the OpenAI-compatible Stream Normalizer the synthetic frame
sequence carrying deltas `Hel` and `lo` followed by `[DONE]` yields exactly
the events token `Hel`, token `lo`, `done`, in that order; the single `done`
arrives on the `[DONE]` signal and nothing follows it. -/
theorem openai_stream_round_trip :
    openAIStreamEvents (c2Frames.map (fun f => f ++ "\n"))
      = [Event.token (Json.str "Hel"), Event.token (Json.str "lo"), Event.done] := rfl

/-- C3 counterexample: a request that already carries a system-role message
still gets the default system message prepended, so the normalized list has
two system messages and is one longer than the input. -/
theorem normalize_prepends_counterexample :
    (c3Messages.filter (fun m => m.role == "system")).length = 1
    ∧ ((normalizeMessages none c3Messages).filter (fun m => m.role == "system")).length = 2
    ∧ (normalizeMessages none c3Messages).head?
        = some { role := "system", content := defaultSystemPrompt }
    ∧ (normalizeMessages none c3Messages).length = c3Messages.length + 1 :=
  ⟨rfl, rfl, rfl, rfl⟩

/-- C3 (amended): the gateway always prepends exactly one system message —
the request's `system` field if truthy, else the default — regardless of
whether the caller already supplied a system-role message; the
caller-supplied order is preserved after it. -/
theorem normalize_always_prepends (reqSystem : Option String)
    (msgs : List ChatMessage) :
    normalizeMessages reqSystem msgs
      = { role := "system", content := jsOrStr reqSystem defaultSystemPrompt } :: msgs
    ∧ (normalizeMessages reqSystem msgs).tail = msgs
    ∧ (normalizeMessages reqSystem msgs).length = msgs.length + 1 :=
  ⟨rfl, rfl, rfl⟩

/-- C4 counterexample: with no provider hint and no key configured for any
provider, provider resolution still selects `openai` instead of failing, and
the subsequent openai branch fails with a key-missing error, not a
no-provider-available failure. -/
theorem pickProvider_no_failure_counterexample :
    chooseProvider none c4Env = "openai"
    ∧ (openaiBranch "openai" "https://api.openai.com/v1" c4Env.openaiKey
        c4Transport "gpt-4o-mini" [] 1 512).events
        = [Event.error "OPENAI key missing", Event.done]
    ∧ (openaiBranch "openai" "https://api.openai.com/v1" c4Env.openaiKey
        c4Transport "gpt-4o-mini" [] 1 512).upstreamCalls = 0 :=
  ⟨rfl, rfl, rfl⟩

/-- C4 (amended): when `AI_PROVIDER` is `auto`, `pickProvider` selects the
first of openai, aimlapi, anthropic, gemini whose key is set; when no key is
set at all it defaults to `openai` rather than failing, and the openai
branch then reports the missing key without contacting the upstream. -/
theorem pickProvider_priority_default (env : AiEnv)
    (hauto : jsToLower (jsOrStr env.aiProvider "auto") = "auto") :
    (jsTruthyStr env.openaiKey = true → pickProvider env = "openai")
    ∧ (jsTruthyStr env.openaiKey = false → jsTruthyStr env.aimlapiKey = true →
        pickProvider env = "aimlapi")
    ∧ (jsTruthyStr env.openaiKey = false → jsTruthyStr env.aimlapiKey = false →
        jsTruthyStr env.anthropicKey = true → pickProvider env = "anthropic")
    ∧ (jsTruthyStr env.openaiKey = false → jsTruthyStr env.aimlapiKey = false →
        jsTruthyStr env.anthropicKey = false → jsTruthyStr env.geminiKey = true →
        pickProvider env = "gemini")
    ∧ (jsTruthyStr env.openaiKey = false → jsTruthyStr env.aimlapiKey = false →
        jsTruthyStr env.anthropicKey = false → jsTruthyStr env.geminiKey = false →
        pickProvider env = "openai"
        ∧ ∀ base t model msgs temp mt,
            openaiBranch "openai" base env.openaiKey t model msgs temp mt
              = { events := [Event.error "OPENAI key missing", Event.done],
                  upstreamCalls := 0 }) := by
  refine ⟨?_, ?_, ?_, ?_, ?_⟩
  · intro h1
    simp [pickProvider, hauto, h1]
  · intro h1 h2
    simp [pickProvider, hauto, h1, h2]
  · intro h1 h2 h3
    simp [pickProvider, hauto, h1, h2, h3]
  · intro h1 h2 h3 h4
    simp [pickProvider, hauto, h1, h2, h3, h4]
  · intro h1 h2 h3 h4
    refine ⟨by simp [pickProvider, hauto, h1, h2, h3, h4], ?_⟩
    intro base t model msgs temp mt
    simp [openaiBranch, h1]
    rfl

/-- C4 witness: the amended theorem applied to the keyless environment. -/
theorem pickProvider_priority_default_witness :
    pickProvider c4Env = "openai" :=
  ((pickProvider_priority_default c4Env rfl).2.2.2.2 rfl rfl rfl rfl).1

/-- C7: each provider branch with its API key absent emits the key-missing
error event, closes the stream, and performs zero upstream calls. -/
theorem adapters_key_missing_no_network (chosen base model : String)
    (kO kA kG : Option String)
    (tO : OpenAIRequest → StreamResponse) (tA : AnthropicRequest → StreamResponse)
    (tG : GeminiRequest → GeminiResponse)
    (msgs : List ChatMessage) (temp : Rat) (mt : Int)
    (hO : jsTruthyStr kO = false) (hA : jsTruthyStr kA = false)
    (hG : jsTruthyStr kG = false) :
    openaiBranch chosen base kO tO model msgs temp mt
      = { events := [Event.error (jsToUpper chosen ++ " key missing"), Event.done],
          upstreamCalls := 0 }
    ∧ anthropicBranch kA tA model msgs temp mt
      = { events := [Event.error "ANTHROPIC_API_KEY missing", Event.done],
          upstreamCalls := 0 }
    ∧ geminiBranch kG tG model msgs temp mt
      = { events := [Event.error "GEMINI_API_KEY missing", Event.done],
          upstreamCalls := 0, request := none } := by
  refine ⟨?_, ?_, ?_⟩
  · simp [openaiBranch, hO]
  · simp [anthropicBranch, hA]
  · simp [geminiBranch, hG]

/-- C7 witness: the three branches at concrete inputs with no keys. -/
theorem adapters_key_missing_no_network_witness :
    openaiBranch "openai" "https://api.openai.com/v1" none c4Transport
        "gpt-4o-mini" c7Messages 1 512
      = { events := [Event.error (jsToUpper "openai" ++ " key missing"), Event.done],
          upstreamCalls := 0 }
    ∧ anthropicBranch none c7AnthropicTransport "m" c7Messages 1 512
      = { events := [Event.error "ANTHROPIC_API_KEY missing", Event.done],
          upstreamCalls := 0 }
    ∧ geminiBranch none c7GeminiTransport "m" c7Messages 1 512
      = { events := [Event.error "GEMINI_API_KEY missing", Event.done],
          upstreamCalls := 0, request := none } :=
  adapters_key_missing_no_network "openai" "https://api.openai.com/v1" "m"
    none none none c4Transport c7AnthropicTransport c7GeminiTransport
    c7Messages 1 512 rfl rfl rfl

/-- C9: `listStores` output is exactly the public identifier/label pairs and
is independent of every stored secret — two store tables agreeing on ids and
names produce identical output however their refresh tokens differ. -/
theorem listStores_independent_of_secrets (stores1 stores2 : List StoreRec)
    (h : stores1.map (fun s => (s.id, s.name)) = stores2.map (fun s => (s.id, s.name))) :
    listStores stores1 = listStores stores2 := by
  rw [listStores_factors, listStores_factors, h]

/-- C9 witness: two concrete tables differing only in stored secrets. -/
theorem listStores_independent_of_secrets_witness :
    listStores c9StoresA = listStores c9StoresB :=
  listStores_independent_of_secrets c9StoresA c9StoresB (by decide)

/-! ## Claims about the token broker -/

/-- C6: a store with no refresh token configured fails with the
missing-refresh-token error (the store never completed authorization) and
performs zero network calls. -/
theorem getAccessToken_missing_refresh (env : LwaEnv)
    (t : TokenRequest → TokenResponse) (storeId : String)
    (h : env.refreshTokens storeId = none) :
    getAccessToken env t storeId
      = (Except.error ("Missing refresh token for store \"" ++ storeId
          ++ "\". Add REFRESH_TOKEN_" ++ storeId ++ " in Render env."), 0) := by
  simp [getAccessToken, h, jsTruthyStr]

/-- C6 witness: a concrete store with no refresh token. -/
theorem getAccessToken_missing_refresh_witness :
    getAccessToken c6Env c1Transport "kavplus"
      = (Except.error ("Missing refresh token for store \"" ++ "kavplus"
          ++ "\". Add REFRESH_TOKEN_" ++ "kavplus" ++ " in Render env."), 0) :=
  getAccessToken_missing_refresh c6Env c1Transport "kavplus" rfl

/-- C1 counterexample: a successful `getAccessToken` invocation — the
authorization server just issued a token valid for 3600 seconds, far beyond
any safety margin — still performs one network call, and a repeated
invocation (the state read by the function, `c1Env`, is unchanged by the
call) again performs one network call, never zero: the code holds no access
token cache at all. -/
theorem getAccessToken_no_cache_counterexample :
    (getAccessToken c1Env c1Transport "kavplus").1 = Except.ok c1Resp
    ∧ c1Resp.expires_in = 3600
    ∧ (getAccessToken c1Env c1Transport "kavplus").2 = 1
    ∧ (getAccessToken c1Env c1Transport "kavplus").2 ≠ 0 :=
  ⟨rfl, rfl, rfl, by decide⟩

/-- C1 (amended): `getAccessToken` maintains no access-token cache — every
invocation that returns a token performs exactly one call to the token
endpoint; only the precondition failures avoid the network. -/
theorem getAccessToken_refreshes_every_call (env : LwaEnv)
    (t : TokenRequest → TokenResponse) (storeId : String)
    (h : brokerOk (getAccessToken env t storeId) = true) :
    (getAccessToken env t storeId).2 = 1 := by
  unfold getAccessToken at h ⊢
  by_cases h1 : jsTruthyStr (env.refreshTokens storeId) = false
  · rw [if_pos h1] at h
    simp [brokerOk] at h
  · rw [if_neg h1] at h ⊢
    by_cases h2 : env.clientId = "" ∨ env.clientSecret = ""
    · rw [if_pos h2] at h
      simp [brokerOk] at h
    · rw [if_neg h2] at h ⊢
      dsimp only at h ⊢
      split <;> rfl

/-- C1 witness for the amended theorem: the concrete successful invocation. -/
theorem getAccessToken_refreshes_every_call_witness :
    (getAccessToken c1Env c1Transport "kavplus").2 = 1 :=
  getAccessToken_refreshes_every_call c1Env c1Transport "kavplus" rfl

/-- C5 counterexample: two exchange replies agreeing on the refresh token
but differing in access token and lifetime produce identical stored records,
so the stored Credential Record contains neither the derived access token
nor any expiry. -/
theorem spapi_callback_record_counterexample :
    (spapiCallback c5Env (fun _ => c5RespA) c5Query "2025-01-01T00:00:00Z" none).1
      = (spapiCallback c5Env (fun _ => c5RespB) c5Query "2025-01-01T00:00:00Z" none).1
    ∧ c5RespA.access_token ≠ c5RespB.access_token
    ∧ c5RespA.expires_in ≠ c5RespB.expires_in :=
  ⟨rfl, by decide, by decide⟩

/-- C5 (amended): a callback with a code the exchange client accepts writes
a record whose `refresh_token` equals the exchange response's refresh token,
together with the region and the current timestamp — and nothing else: the
derived access token and expiry are not persisted. -/
theorem spapi_callback_stores_refresh_token (env : CallbackEnv)
    (t : CodeExchangeRequest → CodeExchangeResponse) (q : CallbackQuery)
    (now : String) (saved : Option SpapiRecord)
    (he : jsTruthyStr q.error = false) (hc : jsTruthyStr q.code = true)
    (hok : (t (spapiExchangeRequest env (q.code.getD ""))).ok = true) :
    (spapiCallback env t q now saved).1
      = some { refresh_token := (t (spapiExchangeRequest env (q.code.getD ""))).refresh_token,
               region := jsOrStr env.spapiRegion "eu", saved_at := now }
    ∧ (spapiCallback env t q now saved).2
      = CallbackOutcome.success
          "✅ SP-API refresh token saved (in memory). Replace with DB storage later." := by
  constructor <;> simp [spapiCallback, he, hc, hok]

/-- C5 witness for the amended theorem: the concrete successful callback. -/
theorem spapi_callback_stores_refresh_token_witness :
    (spapiCallback c5Env (fun _ => c5RespA) c5Query "2025-01-01T00:00:00Z" none).1
      = some { refresh_token := c5RespA.refresh_token,
               region := jsOrStr c5Env.spapiRegion "eu",
               saved_at := "2025-01-01T00:00:00Z" } :=
  (spapi_callback_stores_refresh_token c5Env (fun _ => c5RespA) c5Query
    "2025-01-01T00:00:00Z" none rfl rfl rfl).1

/-! ## Claim about the Gemini adapter -/

/-- C8: the Gemini branch builds its single prompt from the non-system
messages as uppercased `ROLE: content` lines joined by newlines in order,
issues exactly one upstream call, and re-emits the returned text as
single-character token events terminated by `done`, whose concatenation is
the returned text. -/
theorem gemini_prompt_and_char_stream (key : Option String)
    (t : GeminiRequest → GeminiResponse) (model : String)
    (normalized : List ChatMessage) (temp : Rat) (mt : Int)
    (hk : jsTruthyStr key = true)
    (hok : (t (geminiRequestOf key model normalized temp mt)).ok = true) :
    (geminiBranch key t model normalized temp mt).upstreamCalls = 1
    ∧ (geminiBranch key t model normalized temp mt).request
        = some (geminiRequestOf key model normalized temp mt)
    ∧ (geminiRequestOf key model normalized temp mt).text
        = jsJoin "\n" ((normalized.filter (fun m => m.role != "system")).map
            (fun m => jsToUpper m.role ++ ": " ++ m.content))
    ∧ (geminiBranch key t model normalized temp mt).events
        = (geminiText (t (geminiRequestOf key model normalized temp mt)).body).data.map
            (fun ch => Event.token (Json.str (String.mk [ch]))) ++ [Event.done]
    ∧ concatTokens ((geminiBranch key t model normalized temp mt).events)
        = geminiText (t (geminiRequestOf key model normalized temp mt)).body := by
  have hev : (geminiBranch key t model normalized temp mt).events
      = (geminiText (t (geminiRequestOf key model normalized temp mt)).body).data.map
          (fun ch => Event.token (Json.str (String.mk [ch]))) ++ [Event.done] := by
    simp [geminiBranch, hk, hok]
  refine ⟨by simp [geminiBranch, hk, hok], by simp [geminiBranch, hk, hok], rfl, hev, ?_⟩
  rw [hev, concatTokens_append_done, concatTokens_singleton_chars]

/-- C8 witness: a concrete successful Gemini invocation. -/
theorem gemini_prompt_and_char_stream_witness :
    concatTokens ((geminiBranch (some "gk") c8Transport "" c8Messages 1 256).events)
      = geminiText (c8Transport (geminiRequestOf (some "gk") "" c8Messages 1 256)).body
    ∧ (geminiBranch (some "gk") c8Transport "" c8Messages 1 256).upstreamCalls = 1 :=
  ⟨(gemini_prompt_and_char_stream (some "gk") c8Transport "" c8Messages 1 256
      rfl rfl).2.2.2.2,
   (gemini_prompt_and_char_stream (some "gk") c8Transport "" c8Messages 1 256
      rfl rfl).1⟩

/-! ## Claims about the store repository upsert -/

theorem saveStore_eq_upsertRec (l : List Store) (st : Store) :
    saveStore l st = upsertRec l st := by
  induction l with
  | nil => rfl
  | cons s rest ih =>
    by_cases h : s.key = st.key
    · simp [saveStore, upsertRec, List.findIdx?_cons, h]
    · have hb : (s.key == st.key) = false := beq_eq_false_iff_ne.mpr h
      cases hf : rest.findIdx? (fun x => x.key == st.key) with
      | none =>
        have hrest : saveStore rest st = rest ++ [st] := by simp [saveStore, hf]
        have hru : upsertRec rest st = rest ++ [st] := by rw [← ih, hrest]
        simp [saveStore, upsertRec, List.findIdx?_cons, hb, hf, hru]
      | some i =>
        have hrest : saveStore rest st = rest.set i st := by simp [saveStore, hf]
        have hru : upsertRec rest st = rest.set i st := by rw [← ih, hrest]
        simp [saveStore, upsertRec, List.findIdx?_cons, hb, hf, hru]

theorem getStore_upsertRec_self (l : List Store) (st : Store) :
    getStore (upsertRec l st) st.key = some st := by
  induction l with
  | nil => simp [upsertRec, getStore]
  | cons s rest ih =>
    by_cases h : s.key = st.key
    · simp [upsertRec, getStore, h]
    · have hb : (s.key == st.key) = false := beq_eq_false_iff_ne.mpr h
      simp only [upsertRec, hb, if_neg, Bool.false_eq_true, not_false_iff]
      simpa [getStore, hb] using ih

theorem getStore_upsertRec_frame (l : List Store) (st : Store) (k : String)
    (hk : k ≠ st.key) :
    getStore (upsertRec l st) k = getStore l k := by
  have hb0 : (st.key == k) = false := beq_eq_false_iff_ne.mpr (fun hh => hk hh.symm)
  induction l with
  | nil => simp [upsertRec, getStore, hb0]
  | cons s rest ih =>
    by_cases h : s.key = st.key
    · have hs : (s.key == k) = false := by rw [h]; exact hb0
      have hbeq : (s.key == st.key) = true := by simp [h]
      simp [upsertRec, hbeq, getStore, hs, hb0]
    · have hbeq : (s.key == st.key) = false := beq_eq_false_iff_ne.mpr h
      by_cases hs : s.key = k
      · have hsk : (s.key == k) = true := by simp [hs]
        simp [upsertRec, hbeq, getStore, hsk]
      · have hsk : (s.key == k) = false := beq_eq_false_iff_ne.mpr hs
        simpa [upsertRec, hbeq, getStore, hsk] using ih

theorem length_upsertRec_mem (l : List Store) (st : Store)
    (h : ∃ s ∈ l, s.key = st.key) :
    (upsertRec l st).length = l.length := by
  induction l with
  | nil => exact absurd h (by simp)
  | cons s rest ih =>
    by_cases hs : s.key = st.key
    · have hbeq : (s.key == st.key) = true := by simp [hs]
      simp [upsertRec, hbeq]
    · have hbeq : (s.key == st.key) = false := beq_eq_false_iff_ne.mpr hs
      have h2 : ∃ x ∈ rest, x.key = st.key := by
        rcases h with ⟨x, hx, hkey⟩
        rcases List.mem_cons.mp hx with rfl | hx2
        · exact absurd hkey hs
        · exact ⟨x, hx2, hkey⟩
      simp [upsertRec, hbeq, ih h2]

theorem length_upsertRec_notmem (l : List Store) (st : Store)
    (h : ∀ s ∈ l, s.key ≠ st.key) :
    (upsertRec l st).length = l.length + 1 := by
  induction l with
  | nil => rfl
  | cons s rest ih =>
    have hbeq : (s.key == st.key) = false :=
      beq_eq_false_iff_ne.mpr (h s (List.mem_cons_self s rest))
    have h2 : ∀ x ∈ rest, x.key ≠ st.key :=
      fun x hx => h x (List.mem_cons_of_mem s hx)
    simp [upsertRec, hbeq, ih h2]

theorem mem_keys_upsertRec (l : List Store) (st : Store) (k : String)
    (hk : k ∈ (upsertRec l st).map (fun s => s.key)) :
    k ∈ l.map (fun s => s.key) ∨ k = st.key := by
  induction l with
  | nil =>
    simp only [upsertRec, List.map_cons, List.map_nil] at hk
    rcases List.mem_cons.mp hk with heq | hin
    · exact Or.inr heq
    · exact absurd hin (List.not_mem_nil k)
  | cons s rest ih =>
    by_cases h : (s.key == st.key) = true
    · simp only [upsertRec, if_pos h, List.map_cons] at hk
      rcases List.mem_cons.mp hk with heq | hin
      · exact Or.inr heq
      · exact Or.inl (by rw [List.map_cons]; exact List.mem_cons_of_mem _ hin)
    · simp only [upsertRec, if_neg h, List.map_cons] at hk
      rcases List.mem_cons.mp hk with heq | hin
      · exact Or.inl (by rw [List.map_cons]; exact heq ▸ List.mem_cons_self _ _)
      · rcases ih hin with hin2 | heq2
        · exact Or.inl (by rw [List.map_cons]; exact List.mem_cons_of_mem _ hin2)
        · exact Or.inr heq2

theorem nodup_keys_upsertRec (l : List Store) (st : Store)
    (h : (l.map (fun s => s.key)).Nodup) :
    ((upsertRec l st).map (fun s => s.key)).Nodup := by
  induction l with
  | nil => simp [upsertRec]
  | cons s rest ih =>
    rw [List.map_cons, List.nodup_cons] at h
    by_cases hs : s.key = st.key
    · have hbeq : (s.key == st.key) = true := by simp [hs]
      rw [upsertRec, if_pos hbeq, List.map_cons, List.nodup_cons]
      exact ⟨hs ▸ h.1, h.2⟩
    · have hbeq : ¬ ((s.key == st.key) = true) := by
        simp [beq_eq_false_iff_ne.mpr hs]
      rw [upsertRec, if_neg hbeq, List.map_cons, List.nodup_cons]
      refine ⟨?_, ih h.2⟩
      intro hmem
      rcases mem_keys_upsertRec rest st s.key hmem with hin | heq
      · exact h.1 hin
      · exact hs heq

/-- C10: `saveStore` is a frame-respecting upsert — afterwards `getStore`
on the saved key returns the given store, lookups of every other key are
unchanged, the list keeps its length when the key existed and grows by one
entry otherwise, and unique keys remain unique. -/
theorem saveStore_upsert_frame (l : List Store) (st : Store) :
    getStore (saveStore l st) st.key = some st
    ∧ (∀ k, k ≠ st.key → getStore (saveStore l st) k = getStore l k)
    ∧ ((∃ s ∈ l, s.key = st.key) → (saveStore l st).length = l.length)
    ∧ ((∀ s ∈ l, s.key ≠ st.key) → (saveStore l st).length = l.length + 1)
    ∧ ((l.map (fun s => s.key)).Nodup →
        ((saveStore l st).map (fun s => s.key)).Nodup) := by
  rw [saveStore_eq_upsertRec]
  exact ⟨getStore_upsertRec_self l st,
    fun k hk => getStore_upsertRec_frame l st k hk,
    length_upsertRec_mem l st,
    length_upsertRec_notmem l st,
    nodup_keys_upsertRec l st⟩

/-- C10 witness: the upsert properties at a concrete store list. -/
theorem saveStore_upsert_frame_witness :
    getStore (saveStore c10List c10Store) c10Store.key = some c10Store
    ∧ getStore (saveStore c10List c10Store) "jk" = getStore c10List "jk"
    ∧ (saveStore c10List c10Store).length = c10List.length := by
  refine ⟨(saveStore_upsert_frame c10List c10Store).1, ?_, ?_⟩
  · exact (saveStore_upsert_frame c10List c10Store).2.1 "jk" (by decide)
  · exact (saveStore_upsert_frame c10List c10Store).2.2.1
      ⟨{ key := "kavplus", name := "KAV PLUS", spapi := none }, by decide, by decide⟩
